import Mathlib

/-!
Shallow embedding of the backend-chatbot session/fan-out engine
(`src/sockets/chatSocket.js`, `src/services/chatService.js`,
`src/services/chatGPTService.js`) together with theorems checking the
specification's claims against it.

Conventions of the embedding:
* JS `Map` objects become association lists `List (String × α)` with
  insert-or-replace update (`setAssoc`) and key lookup (`lookupA`);
  JS `Set` objects become `List String` with append-if-absent insertion.
* JS strings are Lean `String`s; `String.prototype.trim`,
  `substring(0, n)` and template concatenation are embedded explicitly.
* The async `user_message` handler is split at its first `await`
  (the `saveMessage` call): `userMessageStart` is the synchronous prefix
  (validation, dedup check, in-flight guard, tracker update) and
  `userMessageFinish` is the rest (persistence, AI branch, `finally`
  release).  Persistence failure and the responder outcome enter as
  explicit parameters (`persistFails : Bool`, `aiOutcome : Option String`).
* Wall-clock time (`Date.now()`) is an explicit `now : Nat` parameter in
  milliseconds.
-/

namespace Chatbot

/-! ### Association-list maps (embedding of JS `Map`) -/

/-- Key lookup in an association list; first binding wins
(JS `Map.prototype.get`). -/
def lookupA {α : Type} : List (String × α) → String → Option α
  | [], _ => none
  | (k', v) :: rest, k => if k' = k then some v else lookupA rest k

/-- Insert-or-replace update (JS `Map.prototype.set`): replaces the
existing binding in place, otherwise appends at the end. -/
def setAssoc {α : Type} : List (String × α) → String → α → List (String × α)
  | [], k, v => [(k, v)]
  | (k', v') :: rest, k, v =>
      if k' = k then (k, v) :: rest else (k', v') :: setAssoc rest k v

/-- Key removal (JS `Map.prototype.delete` / `Set.prototype.delete`):
afterwards the key is absent. -/
def mapDelete (l : List String) (k : String) : List String :=
  l.filter (fun x => !(x == k))

theorem lookupA_setAssoc_self {α : Type} (l : List (String × α)) (k : String) (v : α) :
    lookupA (setAssoc l k v) k = some v := by
  induction l with
  | nil => simp [setAssoc, lookupA]
  | cons hd tl ih =>
      obtain ⟨k', v'⟩ := hd
      by_cases h : k' = k
      · simp [setAssoc, h, lookupA]
      · simp [setAssoc, h, lookupA, ih]

theorem not_mem_mapDelete (l : List String) (k : String) :
    k ∉ mapDelete l k := by
  intro h
  have := List.of_mem_filter h
  simp at this

/-! ### JS string operations -/

/-- Whitespace recognised by `String.prototype.trim` (the code points the
repository's inputs can contain). -/
def isJsWhitespace (c : Char) : Bool :=
  c = ' ' || c = '\t' || c = '\n' || c = '\r' ||
  c = '\x0b' || c = '\x0c' || c = ' '

/-- `String.prototype.trim`: drop leading and trailing whitespace. -/
def jsTrim (s : String) : String :=
  ⟨((s.data.dropWhile isJsWhitespace).reverse.dropWhile isJsWhitespace).reverse⟩

/-- `String.prototype.substring(0, n)`. -/
def jsTake (s : String) (n : Nat) : String :=
  ⟨s.data.take n⟩

/-- `Array.prototype.slice(-n)`: the at-most-`n` last elements. -/
def jsSliceLast {α : Type} (n : Nat) (l : List α) : List α :=
  l.drop (l.length - n)

/-! ### Message store (`chatService.js` over the Prisma schema) -/

/-- A `ChatSession` row (`prisma/migrations/.../migration.sql`): public
`sessionId` plus informational fields. -/
structure SessionRow where
  sessionId : String
  ip : String
  userAgent : String
deriving DecidableEq, Repr

/-- A `Message` row.  `sessionId` is the public identifier of the owning
`ChatSession` (the row the `chatSessionId` foreign key resolves to). -/
structure MessageRow where
  sessionId : String
  sender : String
  content : String
  isAI : Bool
deriving DecidableEq, Repr

/-- The relational store: session rows and message rows, each in
insertion order. -/
structure Db where
  sessions : List SessionRow
  messages : List MessageRow
deriving DecidableEq, Repr

/-- `prisma.chatSession.findUnique({ where: { sessionId } })`. -/
def findSession (db : Db) (sessionId : String) : Option SessionRow :=
  db.sessions.find? (fun s => s.sessionId == sessionId)

/-- `chatService.createChatSession` (lines 4-10): generates a fresh
identifier (`generateSessionId()`, passed in as `freshId`) and inserts a
row carrying that fresh identifier. -/
def createChatSession (db : Db) (freshId ip userAgent : String) : Db × String :=
  ({ db with sessions := db.sessions ++ [⟨freshId, ip, userAgent⟩] }, freshId)

/-- `chatService.saveMessage` (lines 18-48): look the session up by its
public identifier, tolerantly create it (with `ip`/`userAgent` set to
"unknown") when absent, then insert the message row.  `isAI` defaults to
`false` in the source; every call site in `chatSocket.js` omits it. -/
def saveMessage (db : Db) (sessionId sender content : String) (isAI : Bool) :
    Db × MessageRow :=
  let db' :=
    match findSession db sessionId with
    | some _ => db
    | none =>
        { db with sessions := db.sessions ++ [(⟨sessionId, "unknown", "unknown"⟩ : SessionRow)] }
  let msg : MessageRow := ⟨sessionId, sender, content, isAI⟩
  ({ db' with messages := db'.messages ++ [msg] }, msg)

/-! ### Connection router (socket/room bookkeeping in `chatSocket.js`) -/

/-- The router's share of the module-level state: the admin socket set,
the socket-to-session binding and each socket's joined rooms. -/
structure RouterState where
  adminSockets : List String
  socketToSession : List (String × String)
  socketRooms : List (String × List String)
deriving DecidableEq, Repr

/-- `socket.join(room)`: record the room in the socket's room set
(idempotent). -/
def joinRoom (r : RouterState) (sockId room : String) : RouterState :=
  let rooms := (lookupA r.socketRooms sockId).getD []
  let rooms' := if room ∈ rooms then rooms else rooms ++ [room]
  { r with socketRooms := setAssoc r.socketRooms sockId rooms' }

/-- Members of a room: the sockets whose room set contains it
(the recipients of `io.to(room).emit`). -/
def roomMembers (r : RouterState) (room : String) : List String :=
  (r.socketRooms.filter (fun p => room ∈ p.2)).map (·.1)

/-- Fan-out of a user-authored message (`chatSocket.js` lines 235-241):
iterate the admin socket set and emit to each admin socket that is a
member of the session's room. -/
def userMessageRecipients (r : RouterState) (room : String) : List String :=
  r.adminSockets.filter (fun a =>
    match lookupA r.socketRooms a with
    | some rooms => room ∈ rooms
    | none => false)

/-- Fan-out of an admin-authored message (`chatSocket.js` line 349):
`io.to(sessionId).emit` reaches every member of the room, the origin
included when it is a member. -/
def adminMessageRecipients (r : RouterState) (room : String) : List String :=
  roomMembers r room

/-- The binding part of the `init_session` handler (lines 145-150):
`socket.join(sessionId)` followed by `socketToSession.set(socket.id,
sessionId)`; no check whether the socket is already bound. -/
def initSessionBind (r : RouterState) (sockId sessionId : String) : RouterState :=
  let r1 := joinRoom r sockId sessionId
  { r1 with socketToSession := setAssoc r1.socketToSession sockId sessionId }

/-- The ensure-exists part of the `init_session` handler for a presented
identifier (lines 132-142): if `getSession` finds nothing, call
`createChatSession('unknown', 'unknown')` — which inserts a row under a
freshly generated identifier, not under the presented one. -/
def ensureSessionExists (db : Db) (presentedId freshId : String) : Db :=
  match findSession db presentedId with
  | some _ => db
  | none => (createChatSession db freshId "unknown" "unknown").1

/-! ### Message intake pipeline (`user_message` / `admin_message` handlers) -/

/-- Maximum content length (`chatSocket.js` line 192). -/
def maxLength : Nat := 500

/-- Content normalization (`chatSocket.js` lines 190-195): trim, then
truncate to `maxLength` appending the `'...'` marker when truncated. -/
def finalContentOf (content : String) : String :=
  let trimmedContent := jsTrim content
  if trimmedContent.length > maxLength
    then jsTake trimmedContent maxLength ++ "..."
    else trimmedContent

/-- The composite in-flight key (line 206):
`` `${sessionId}_${finalContent}` ``. -/
def requestKey (sessionId finalContent : String) : String :=
  sessionId ++ "_" ++ finalContent

/-- The duplicate check (lines 197-203): the per-session tracker holds the
last accepted content with its timestamp; reject when the incoming
normalized content is identical and less than 5000 ms have passed. -/
def isDuplicate (last : List (String × String × Nat))
    (sessionId finalContent : String) (now : Nat) : Bool :=
  match lookupA last sessionId with
  | some (c, t) => c == finalContent && decide (now - t < 5000)
  | none => false

/-- The fixed fallback apology (line 292). -/
def fallbackText : String :=
  "I'm sorry, I'm having trouble generating a response right now. An admin will assist you shortly."

/-- The module-level mutable state of `chatSocket.js` that the intake
pipeline reads and writes, together with the store. -/
structure ChatState where
  router : RouterState
  aiEnabledSessions : List String
  lastUserMessages : List (String × String × Nat)
  processingRequests : List String
  pendingReleases : List (String × Nat)
  db : Db
deriving DecidableEq, Repr

/-- Result of a `user_message` submission. -/
inductive IntakeResult where
  | rejectedEmpty
  | rejectedDuplicate
  | rejectedInFlight
  | accepted (finalContent : String)
  | storageFailed (finalContent : String)
deriving DecidableEq, Repr

/-- Whether the submission was silently rejected before persistence. -/
def IntakeResult.isReject : IntakeResult → Bool
  | .rejectedEmpty => true
  | .rejectedDuplicate => true
  | .rejectedInFlight => true
  | _ => false

/-- Result of the synchronous prefix of the handler. -/
inductive StartResult where
  | rejectedEmpty
  | rejectedDuplicate
  | rejectedInFlight
  | started (finalContent : String)
deriving DecidableEq, Repr

/-- An outbound `message` emit: the recipient socket ids and the
persisted row that was sent. -/
structure Emit where
  recipients : List String
  message : MessageRow
deriving DecidableEq, Repr

/-- Synchronous prefix of the `user_message` handler (lines 184-221):
empty-content validation, normalization, duplicate rejection, in-flight
rejection, then registration of the in-flight key and of the
last-message tracker entry. -/
def userMessageStart (st : ChatState) (sessionId content : String) (now : Nat) :
    StartResult × ChatState :=
  if jsTrim content = "" then (.rejectedEmpty, st)
  else if isDuplicate st.lastUserMessages sessionId (finalContentOf content) now then
    (.rejectedDuplicate, st)
  else if requestKey sessionId (finalContentOf content) ∈ st.processingRequests then
    (.rejectedInFlight, st)
  else
    (.started (finalContentOf content),
      { st with
          processingRequests :=
            st.processingRequests ++ [requestKey sessionId (finalContentOf content)],
          lastUserMessages :=
            setAssoc st.lastUserMessages sessionId (finalContentOf content, now) })

/-- The rest of the `user_message` handler (lines 223-330): persist the
user message (or fail, modelled by `persistFails`), fan it out to the
admin members of the room, run the AI branch when enabled (success text
or failure in `aiOutcome`; the reply — or the fallback — is saved with
the `isAI` argument omitted, hence `false`, and fanned out to the whole
room), and in the `finally` clause release the in-flight key and
schedule the 30-second forced release. -/
def userMessageFinish (st : ChatState) (sessionId finalContent : String) (now : Nat)
    (persistFails : Bool) (aiOutcome : Option String) : ChatState × List Emit :=
  let key := requestKey sessionId finalContent
  let finallyRelease := fun (s : ChatState) =>
    { s with
        processingRequests := mapDelete s.processingRequests key,
        pendingReleases := s.pendingReleases ++ [(key, now + 30000)] }
  if persistFails then (finallyRelease st, [])
  else
    let p1 := saveMessage st.db sessionId "user" finalContent false
    let userEmit : Emit := ⟨userMessageRecipients st.router sessionId, p1.2⟩
    if sessionId ∈ st.aiEnabledSessions then
      match aiOutcome with
      | some text =>
          let p2 := saveMessage p1.1 sessionId "admin" text false
          (finallyRelease { st with db := p2.1 },
            [userEmit, ⟨roomMembers st.router sessionId, p2.2⟩])
      | none =>
          let p2 := saveMessage p1.1 sessionId "admin" fallbackText false
          (finallyRelease { st with db := p2.1 },
            [userEmit, ⟨roomMembers st.router sessionId, p2.2⟩])
    else (finallyRelease { st with db := p1.1 }, [userEmit])

/-- The whole `user_message` handler, run to completion. -/
def handleUserMessage (st : ChatState) (sessionId content : String) (now : Nat)
    (persistFails : Bool) (aiOutcome : Option String) :
    IntakeResult × ChatState × List Emit :=
  match userMessageStart st sessionId content now with
  | (.rejectedEmpty, st') => (.rejectedEmpty, st', [])
  | (.rejectedDuplicate, st') => (.rejectedDuplicate, st', [])
  | (.rejectedInFlight, st') => (.rejectedInFlight, st', [])
  | (.started fc, st') =>
      let r := userMessageFinish st' sessionId fc now persistFails aiOutcome
      ((if persistFails then .storageFailed fc else .accepted fc), r.1, r.2)

/-- Firing one of the scheduled 30-second forced releases (the
`setTimeout` callback of lines 327-329): delete the key. -/
def fireRelease (st : ChatState) (key : String) (time : Nat) : ChatState :=
  { st with
      processingRequests := mapDelete st.processingRequests key,
      pendingReleases := st.pendingReleases.filter (fun p => !(p == (key, time))) }

/-- The `admin_message` handler (lines 333-369): no validation at all —
persist the raw content as an admin message (`isAI` omitted, hence
`false`) and emit it to every member of the room. -/
def handleAdminMessage (st : ChatState) (sessionId content : String) :
    ChatState × List Emit :=
  let p := saveMessage st.db sessionId "admin" content false
  ({ st with db := p.1 }, [⟨adminMessageRecipients st.router sessionId, p.2⟩])

/-! ### Responder gateway (`chatGPTService.js`) -/

/-- A role-tagged history turn as assembled by the handler. -/
structure ChatTurn where
  role : String
  content : String
deriving DecidableEq, Repr

/-- History assembly (`chatSocket.js` lines 255-258): the at-most-6 last
messages of the conversation (the just-persisted user message included),
each tagged `"user"` or `"assistant"`. -/
def conversationHistoryOf (recentMessages : List MessageRow) : List ChatTurn :=
  (jsSliceLast 6 recentMessages).map (fun msg =>
    ⟨if msg.sender = "user" then "user" else "assistant", msg.content⟩)

/-- The body of the outbound HTTP request
(`chatGPTService.js` lines 29-32). -/
structure ResponderRequest where
  model : String
  input : String
deriving DecidableEq, Repr

set_option linter.unusedVariables false in
/-- `ChatGPTService.generateResponse` request construction (lines 29-32):
the request data carries the model selector and the prompt text; the
`conversationHistory` parameter is accepted but not used. -/
def buildRequestData (userMessage : String) (conversationHistory : List ChatTurn) :
    ResponderRequest :=
  { model := "gpt-4.1-mini", input := userMessage }

/-! ### Helper lemmas about the pipeline phases -/

/-- An accepted start normalizes the content and registers both the
in-flight key and the tracker entry. -/
theorem userMessageStart_started (st : ChatState) (sid content fc : String) (now : Nat)
    (h : (userMessageStart st sid content now).1 = .started fc) :
    fc = finalContentOf content
    ∧ jsTrim content ≠ ""
    ∧ (userMessageStart st sid content now).2 =
        { st with
            processingRequests :=
              st.processingRequests ++ [requestKey sid (finalContentOf content)],
            lastUserMessages :=
              setAssoc st.lastUserMessages sid (finalContentOf content, now) } := by
  unfold userMessageStart at h ⊢
  split_ifs at h ⊢
  simp_all

/-- When the composite key is already in flight, the start phase leaves
the state untouched and never accepts. -/
theorem userMessageStart_inflight (st : ChatState) (sid content : String) (now : Nat)
    (h : requestKey sid (finalContentOf content) ∈ st.processingRequests) :
    (userMessageStart st sid content now).2 = st
    ∧ ∀ fc, (userMessageStart st sid content now).1 ≠ .started fc := by
  unfold userMessageStart
  split_ifs <;> simp_all

/-- The finish phase only touches `processingRequests` (deleting the
key), `pendingReleases` (scheduling the 30-second forced release) and
the store. -/
theorem userMessageFinish_fields (st : ChatState) (sid fc : String) (now : Nat)
    (pf : Bool) (ai : Option String) :
    (userMessageFinish st sid fc now pf ai).1.router = st.router
    ∧ (userMessageFinish st sid fc now pf ai).1.aiEnabledSessions = st.aiEnabledSessions
    ∧ (userMessageFinish st sid fc now pf ai).1.lastUserMessages = st.lastUserMessages
    ∧ (userMessageFinish st sid fc now pf ai).1.processingRequests
        = mapDelete st.processingRequests (requestKey sid fc)
    ∧ (userMessageFinish st sid fc now pf ai).1.pendingReleases
        = st.pendingReleases ++ [(requestKey sid fc, now + 30000)] := by
  unfold userMessageFinish
  by_cases hpf : pf = true
  · simp [hpf]
  · by_cases hai : sid ∈ st.aiEnabledSessions
    · cases ai <;> simp [hpf, hai]
    · simp [hpf, hai]

/-- When persistence fails, the finish phase leaves the store untouched
and emits nothing. -/
theorem userMessageFinish_persistFails (st : ChatState) (sid fc : String) (now : Nat)
    (ai : Option String) :
    (userMessageFinish st sid fc now true ai).1.db = st.db
    ∧ (userMessageFinish st sid fc now true ai).2 = [] := by
  unfold userMessageFinish
  simp

/-- With automated-response mode off and persistence succeeding, the
finish phase appends exactly the user's row and emits it to the admin
members of the room. -/
theorem userMessageFinish_noAI (st : ChatState) (sid fc : String) (now : Nat)
    (ai : Option String) (hAi : sid ∉ st.aiEnabledSessions) :
    (userMessageFinish st sid fc now false ai).1.db.messages
        = st.db.messages ++ [⟨sid, "user", fc, false⟩]
    ∧ (userMessageFinish st sid fc now false ai).2
        = [⟨userMessageRecipients st.router sid, ⟨sid, "user", fc, false⟩⟩] := by
  unfold userMessageFinish
  cases h : findSession st.db sid <;> simp [hAi, saveMessage, h]

/-- A duplicate submission makes the start phase reject without touching
the state. -/
theorem userMessageStart_dup (st : ChatState) (sid content : String) (now : Nat)
    (hne : ¬ jsTrim content = "")
    (hdup : isDuplicate st.lastUserMessages sid (finalContentOf content) now = true) :
    userMessageStart st sid content now = (.rejectedDuplicate, st) := by
  unfold userMessageStart
  rw [if_neg hne, if_pos hdup]

/-- The handler on a duplicate submission: silent rejection, state and
emits untouched. -/
theorem handleUserMessage_dup (st : ChatState) (sid content : String) (now : Nat)
    (pf : Bool) (ai : Option String)
    (hne : ¬ jsTrim content = "")
    (hdup : isDuplicate st.lastUserMessages sid (finalContentOf content) now = true) :
    handleUserMessage st sid content now pf ai = (.rejectedDuplicate, st, []) := by
  unfold handleUserMessage
  rw [userMessageStart_dup st sid content now hne hdup]

/-- The handler on an accepted submission is the finish phase applied to
the start phase's output state. -/
theorem handleUserMessage_started_eq (st : ChatState) (sid content fc : String) (now : Nat)
    (pf : Bool) (ai : Option String) (s' : ChatState)
    (hs : userMessageStart st sid content now = (.started fc, s')) :
    handleUserMessage st sid content now pf ai
      = ((if pf then .storageFailed fc else .accepted fc),
         (userMessageFinish s' sid fc now pf ai).1,
         (userMessageFinish s' sid fc now pf ai).2) := by
  unfold handleUserMessage
  rw [hs]

/-! ### Claim C1: routing of user- and admin-authored messages -/

/-- C1 counterexample: in a room whose members are the originating user
socket "U" and a second non-admin socket "U2" (no admin sockets), the
claim says "U2" — a member other than the origin — receives the
user-authored message, but the code delivers it to nobody: the fan-out
iterates the admin socket set only. -/
theorem user_fanout_misses_non_admin_member_cex :
    "U2" ∈ roomMembers ⟨[], [], [("U", ["K"]), ("U2", ["K"])]⟩ "K"
    ∧ "U2" ≠ "U"
    ∧ "U2" ∉ userMessageRecipients ⟨[], [], [("U", ["K"]), ("U2", ["K"])]⟩ "K" := by
  decide

/-- C1 (amended): a user-authored message is delivered to exactly the
administrator sockets that are members of the conversation's room (in
particular the originating non-admin connection receives no self-echo),
while an administrator-authored message is delivered to every member of
the room, the origin included. -/
theorem user_fanout_admins_only_admin_fanout_room (r : RouterState) (room a : String) :
    (a ∈ userMessageRecipients r room ↔
      a ∈ r.adminSockets ∧ ∃ rooms, lookupA r.socketRooms a = some rooms ∧ room ∈ rooms)
    ∧ adminMessageRecipients r room = roomMembers r room := by
  constructor
  · simp only [userMessageRecipients, List.mem_filter]
    constructor
    · rintro ⟨ha, hcond⟩
      refine ⟨ha, ?_⟩
      cases h : lookupA r.socketRooms a with
      | none => rw [h] at hcond; simp at hcond
      | some rooms => rw [h] at hcond; exact ⟨rooms, rfl, by simpa using hcond⟩
    · rintro ⟨ha, rooms, h, hm⟩
      refine ⟨ha, ?_⟩
      rw [h]
      simpa using hm
  · rfl

/-! ### Claim C2: trim and truncation -/

set_option maxRecDepth 4000 in
/-- C2 counterexample: 600 repeated characters are truncated to 500 and
the marker is appended, so the persisted length is 503 — the claim's
"never exceeds the 500-character bound" is false. -/
theorem truncation_exceeds_bound_cex :
    (finalContentOf (String.mk (List.replicate 600 'a'))).length = 503
    ∧ ¬ (finalContentOf (String.mk (List.replicate 600 'a'))).length ≤ maxLength := by
  decide

/-- C2 (amended): the persisted content is the trimmed content, truncated
to the 500-character maximum with the three-character marker appended
when it was longer; trimmed content of length at most 500 is persisted
unchanged; the persisted length never exceeds 503 (the bound plus the
marker). -/
theorem normalize_truncates_with_marker (content : String) :
    finalContentOf content =
      (if (jsTrim content).length > maxLength
        then jsTake (jsTrim content) maxLength ++ "..."
        else jsTrim content)
    ∧ (finalContentOf content).length ≤ maxLength + 3 := by
  refine ⟨rfl, ?_⟩
  by_cases h : (jsTrim content).length > maxLength
  · have h1 : (jsTake (jsTrim content) maxLength).length
        = min maxLength (jsTrim content).length := by
      have e : (jsTake (jsTrim content) maxLength).length
          = ((jsTrim content).data.take maxLength).length := rfl
      rw [e, List.length_take]
      rfl
    have h2 : ("..." : String).length = 3 := rfl
    unfold finalContentOf
    rw [if_pos h, String.length_append, h1, h2]
    have := Nat.min_le_left maxLength (jsTrim content).length
    omega
  · unfold finalContentOf
    rw [if_neg h]
    omega

/-! ### Claim C6: empty-content validation -/

/-- C6 counterexample: an administrator submission whose content is all
whitespace (empty after trimming) is persisted anyway — the
`admin_message` handler performs no validation. -/
theorem admin_empty_message_persisted_cex :
    jsTrim "   " = ""
    ∧ (handleAdminMessage ⟨⟨[], [], []⟩, [], [], [], [], ⟨[], []⟩⟩ "K" "   ").1.db.messages
        = [⟨"K", "admin", "   ", false⟩] := by
  decide

/-- C6 (amended): an end-user submission whose content is empty after
trimming is rejected as a silent no-op (no persistence, no fan-out, no
error), but administrator submissions are not validated: they are
persisted and fanned out to the room unconditionally, even when empty
after trimming. -/
theorem empty_user_rejected_admin_unvalidated
    (st₁ : ChatState) (sid₁ content₁ : String) (now₁ : Nat)
    (pf₁ : Bool) (ai₁ : Option String)
    (st₂ : ChatState) (sid₂ content₂ : String)
    (h : jsTrim content₁ = "") :
    handleUserMessage st₁ sid₁ content₁ now₁ pf₁ ai₁ = (.rejectedEmpty, st₁, [])
    ∧ (handleAdminMessage st₂ sid₂ content₂).1.db.messages
        = st₂.db.messages ++ [⟨sid₂, "admin", content₂, false⟩]
    ∧ (handleAdminMessage st₂ sid₂ content₂).2
        = [⟨adminMessageRecipients st₂.router sid₂, ⟨sid₂, "admin", content₂, false⟩⟩] := by
  refine ⟨?_, ?_, ?_⟩
  · unfold handleUserMessage userMessageStart
    simp [h]
  · unfold handleAdminMessage
    cases hf : findSession st₂.db sid₂ <;> simp [saveMessage, hf]
  · unfold handleAdminMessage
    cases hf : findSession st₂.db sid₂ <;> simp [saveMessage, hf]

/-- C6 witness: the user rejection at the concrete whitespace input
"   " and the admin persistence of the same input. -/
theorem empty_user_rejected_admin_unvalidated_witness :
    handleUserMessage ⟨⟨[], [], []⟩, [], [], [], [], ⟨[], []⟩⟩ "K" "   " 0 false none
        = (.rejectedEmpty, ⟨⟨[], [], []⟩, [], [], [], [], ⟨[], []⟩⟩, [])
    ∧ (handleAdminMessage ⟨⟨[], [], []⟩, [], [], [], [], ⟨[], []⟩⟩ "K" "hello").1.db.messages
        = ([] : List MessageRow) ++ [⟨"K", "admin", "hello", false⟩]
    ∧ (handleAdminMessage ⟨⟨[], [], []⟩, [], [], [], [], ⟨[], []⟩⟩ "K" "hello").2
        = [⟨adminMessageRecipients ⟨[], [], []⟩ "K", ⟨"K", "admin", "hello", false⟩⟩] :=
  empty_user_rejected_admin_unvalidated
    ⟨⟨[], [], []⟩, [], [], [], [], ⟨[], []⟩⟩ "K" "   " 0 false none
    ⟨⟨[], [], []⟩, [], [], [], [], ⟨[], []⟩⟩ "K" "hello" (by decide)

/-! ### Claim C7: tolerant re-creation of an unknown conversation -/

/-- C7: evaluating the `init_session` ensure-exists step on an empty
store with presented identifier "S" (the fresh generator yielding "F"):
afterwards the store still does not know "S" — the inserted row carries
the fresh identifier instead.  This contradicts the handler's own log
message "Session not found in database, creating it". -/
theorem init_session_recreates_wrong_identifier :
    findSession (ensureSessionExists ⟨[], []⟩ "S" "F") "S" = none
    ∧ (ensureSessionExists ⟨[], []⟩ "S" "F").sessions
        = [⟨"F", "unknown", "unknown"⟩] := by
  decide

/-! ### Claim C8: the responder gateway call -/

/-- C8 counterexample: the outbound request data is identical whether the
assembled history is empty or not — the call does not carry the
conversation history. -/
theorem responder_request_ignores_history_cex :
    buildRequestData "hi" [⟨"user", "earlier"⟩] = buildRequestData "hi" []
    ∧ ([(⟨"user", "earlier"⟩ : ChatTurn)] ≠ ([] : List ChatTurn)) := by
  decide

/-- C8 (amended): the outbound call carries the model selector and the
prompt text only; the role-tagged history (the at-most-6 most recent
messages, the just-persisted user message included, each tagged with one
of the two roles) is assembled and passed to the gateway but not
included in the outbound request. -/
theorem responder_request_model_prompt_only
    (userMessage : String) (history : List ChatTurn) (msgs : List MessageRow) :
    buildRequestData userMessage history = ⟨"gpt-4.1-mini", userMessage⟩
    ∧ (conversationHistoryOf msgs).length ≤ 6
    ∧ (conversationHistoryOf msgs).all
        (fun t => t.role == "user" || t.role == "assistant") = true := by
  refine ⟨rfl, ?_, ?_⟩
  · simp only [conversationHistoryOf, jsSliceLast, List.length_map, List.length_drop]
    omega
  · simp only [List.all_eq_true]
    intro t ht
    simp only [conversationHistoryOf, List.mem_map] at ht
    obtain ⟨msg, hmem, rfl⟩ := ht
    by_cases hs : msg.sender = "user" <;> simp [hs]

/-! ### Claim C9: session-initialization binding -/

/-- C9 counterexample: a second `init_session` on the same connection
rebinds it — after initializing socket "S" with conversation "K1" and
then with "K2", the socket-to-session binding reads "K2", not the
first-bound "K1". -/
theorem init_session_rebind_cex :
    lookupA (initSessionBind (initSessionBind ⟨[], [], []⟩ "S" "K1") "S" "K1").socketToSession "S"
        = some "K1"
    ∧ lookupA (initSessionBind (initSessionBind ⟨[], [], []⟩ "S" "K1") "S" "K2").socketToSession "S"
        = some "K2"
    ∧ ("K2" : String) ≠ "K1" := by
  decide

/-- C9 (amended): every session-initialization event (re)binds the
connection to the presented conversation — last one wins — and joins its
room; previously joined rooms are retained; a repeated initialization is
neither rejected nor ignored. -/
theorem init_session_rebinds_last_wins (r : RouterState) (sockId sessionId : String) :
    lookupA (initSessionBind r sockId sessionId).socketToSession sockId = some sessionId
    ∧ sessionId ∈ (lookupA (initSessionBind r sockId sessionId).socketRooms sockId).getD []
    ∧ (lookupA r.socketRooms sockId).getD []
        ⊆ (lookupA (initSessionBind r sockId sessionId).socketRooms sockId).getD [] := by
  unfold initSessionBind joinRoom
  refine ⟨lookupA_setAssoc_self _ _ _, ?_, ?_⟩
  · rw [lookupA_setAssoc_self]
    by_cases h : sessionId ∈ (lookupA r.socketRooms sockId).getD [] <;> simp [h]
  · rw [lookupA_setAssoc_self]
    by_cases h : sessionId ∈ (lookupA r.socketRooms sockId).getD []
    · simp [h]
    · simp only [h, if_neg]
      intro x hx
      simp [List.mem_append]
      exact Or.inl hx

/-! ### Claim C3: automated-response mode -/

/-- C3: with automated-response mode enabled for "K", an accepted user
message yields exactly two persisted rows in user-then-reply order —
but both on the success path and on the failure/fallback path the
administrator-role reply is persisted with the automated-response flag
`false`: `saveMessage` is called without its `isAI` argument, whose
default is `false`. -/
theorem ai_reply_saved_without_auto_flag :
    ((handleUserMessage ⟨⟨[], [], []⟩, ["K"], [], [], [], ⟨[⟨"K", "ip", "ua"⟩], []⟩⟩
        "K" "hi" 1000 false (some "Hello!")).2.1.db.messages
      = [⟨"K", "user", "hi", false⟩, ⟨"K", "admin", "Hello!", false⟩])
    ∧ ((handleUserMessage ⟨⟨[], [], []⟩, ["K"], [], [], [], ⟨[⟨"K", "ip", "ua"⟩], []⟩⟩
        "K" "hi" 1000 false none).2.1.db.messages
      = [⟨"K", "user", "hi", false⟩, ⟨"K", "admin", fallbackText, false⟩]) := by
  decide

/-! ### Claim C4: the 5-second duplicate window -/

/-- C4: a submission accepted at time `t₁` records its normalized
content in the tracker; resubmitting the same content to the same
conversation at `t₂` with `t₂ - t₁ < 5000` is silently rejected with no
persistence and no fan-out, so the two submissions persist exactly one
message (automated-response mode off, persistence succeeding). -/
theorem duplicate_window_single_persist
    (st : ChatState) (sid content fc : String) (t₁ t₂ : Nat)
    (ai₁ ai₂ : Option String) (pf₂ : Bool)
    (h₁ : (userMessageStart st sid content t₁).1 = .started fc)
    (hAi : sid ∉ st.aiEnabledSessions)
    (hWin : t₂ - t₁ < 5000) :
    (handleUserMessage (handleUserMessage st sid content t₁ false ai₁).2.1
        sid content t₂ pf₂ ai₂).1 = .rejectedDuplicate
    ∧ (handleUserMessage (handleUserMessage st sid content t₁ false ai₁).2.1
        sid content t₂ pf₂ ai₂).2.1.db.messages
        = st.db.messages ++ [⟨sid, "user", fc, false⟩]
    ∧ (handleUserMessage (handleUserMessage st sid content t₁ false ai₁).2.1
        sid content t₂ pf₂ ai₂).2.2 = [] := by
  obtain ⟨hfc, hne, hmid⟩ := userMessageStart_started st sid content fc t₁ h₁
  subst hfc
  rcases hs : userMessageStart st sid content t₁ with ⟨res, s'⟩
  rw [hs] at h₁ hmid
  dsimp only at h₁ hmid
  subst h₁
  subst hmid
  rw [handleUserMessage_started_eq st sid content _ t₁ false ai₁ _ hs]
  dsimp only
  set R : ChatState :=
    { st with
        processingRequests :=
          st.processingRequests ++ [requestKey sid (finalContentOf content)],
        lastUserMessages :=
          setAssoc st.lastUserMessages sid (finalContentOf content, t₁) } with hR
  have hfields := userMessageFinish_fields R sid (finalContentOf content) t₁ false ai₁
  have hnoai := userMessageFinish_noAI R sid (finalContentOf content) t₁ ai₁ (by simpa [hR] using hAi)
  have hlast : (userMessageFinish R sid (finalContentOf content) t₁ false ai₁).1.lastUserMessages
      = setAssoc st.lastUserMessages sid (finalContentOf content, t₁) := by
    rw [hfields.2.2.1]
  have hdup : isDuplicate
      (userMessageFinish R sid (finalContentOf content) t₁ false ai₁).1.lastUserMessages
      sid (finalContentOf content) t₂ = true := by
    rw [hlast]
    unfold isDuplicate
    rw [lookupA_setAssoc_self]
    simp [hWin]
  rw [handleUserMessage_dup _ sid content t₂ pf₂ ai₂ hne hdup]
  refine ⟨rfl, ?_, rfl⟩
  rw [hnoai.1, hR]

/-! ### Claim C5: the in-flight concurrency guard -/

/-- C5: an accepted submission records its composite key while in
flight; a submission whose composite key is already in flight is
silently rejected with no persistence and no fan-out; the finish phase
releases the key unconditionally (completion and failure alike) and
schedules the 30-second forced release, whose firing also leaves the
key absent. -/
theorem inflight_guard_spec
    (st₁ : ChatState) (sid₁ content₁ fc₁ : String) (now₁ : Nat)
    (st₂ : ChatState) (sid₂ content₂ : String) (now₂ : Nat) (pf₂ : Bool) (ai₂ : Option String)
    (st₃ : ChatState) (sid₃ fc₃ : String) (now₃ : Nat) (pf₃ : Bool) (ai₃ : Option String)
    (h₁ : (userMessageStart st₁ sid₁ content₁ now₁).1 = .started fc₁)
    (h₂ : requestKey sid₂ (finalContentOf content₂) ∈ st₂.processingRequests) :
    requestKey sid₁ fc₁ ∈ (userMessageStart st₁ sid₁ content₁ now₁).2.processingRequests
    ∧ (handleUserMessage st₂ sid₂ content₂ now₂ pf₂ ai₂).1.isReject = true
    ∧ (handleUserMessage st₂ sid₂ content₂ now₂ pf₂ ai₂).2.1 = st₂
    ∧ (handleUserMessage st₂ sid₂ content₂ now₂ pf₂ ai₂).2.2 = []
    ∧ requestKey sid₃ fc₃ ∉ (userMessageFinish st₃ sid₃ fc₃ now₃ pf₃ ai₃).1.processingRequests
    ∧ (requestKey sid₃ fc₃, now₃ + 30000)
        ∈ (userMessageFinish st₃ sid₃ fc₃ now₃ pf₃ ai₃).1.pendingReleases
    ∧ requestKey sid₃ fc₃
        ∉ (fireRelease st₃ (requestKey sid₃ fc₃) (now₃ + 30000)).processingRequests := by
  obtain ⟨hfc, hne, hmid⟩ := userMessageStart_started st₁ sid₁ content₁ fc₁ now₁ h₁
  have h234 : ((handleUserMessage st₂ sid₂ content₂ now₂ pf₂ ai₂).1.isReject = true)
      ∧ (handleUserMessage st₂ sid₂ content₂ now₂ pf₂ ai₂).2.1 = st₂
      ∧ (handleUserMessage st₂ sid₂ content₂ now₂ pf₂ ai₂).2.2 = [] := by
    unfold handleUserMessage
    rcases hs : userMessageStart st₂ sid₂ content₂ now₂ with ⟨res, s'⟩
    have hinf := userMessageStart_inflight st₂ sid₂ content₂ now₂ h₂
    rw [hs] at hinf
    dsimp only at hinf
    obtain ⟨hse, hns⟩ := hinf
    subst hse
    cases res with
    | started fc => exact absurd rfl (hns fc)
    | rejectedEmpty => exact ⟨rfl, rfl, rfl⟩
    | rejectedDuplicate => exact ⟨rfl, rfl, rfl⟩
    | rejectedInFlight => exact ⟨rfl, rfl, rfl⟩
  have hfields := userMessageFinish_fields st₃ sid₃ fc₃ now₃ pf₃ ai₃
  refine ⟨?_, h234.1, h234.2.1, h234.2.2, ?_, ?_, ?_⟩
  · rw [hmid, hfc]
    simp
  · rw [hfields.2.2.2.1]
    exact not_mem_mapDelete _ _
  · rw [hfields.2.2.2.2]
    simp
  · show requestKey sid₃ fc₃ ∉ mapDelete st₃.processingRequests (requestKey sid₃ fc₃)
    exact not_mem_mapDelete _ _

/-! ### Claim C10: the tracker is not rolled back on storage failure -/

/-- C10: when persisting an accepted user message fails, nothing is
stored, yet the duplicate tracker — updated before the persistence
attempt — keeps the entry, so a byte-identical resubmission within the
5-second window is silently rejected and still nothing is stored. -/
theorem tracker_not_rolled_back_on_failure
    (st : ChatState) (sid content fc : String) (t₁ t₂ : Nat)
    (ai₁ ai₂ : Option String) (pf₂ : Bool)
    (h₁ : (userMessageStart st sid content t₁).1 = .started fc)
    (hWin : t₂ - t₁ < 5000) :
    (handleUserMessage st sid content t₁ true ai₁).1 = .storageFailed fc
    ∧ (handleUserMessage st sid content t₁ true ai₁).2.1.db = st.db
    ∧ lookupA (handleUserMessage st sid content t₁ true ai₁).2.1.lastUserMessages sid
        = some (fc, t₁)
    ∧ (handleUserMessage (handleUserMessage st sid content t₁ true ai₁).2.1
        sid content t₂ pf₂ ai₂).1 = .rejectedDuplicate
    ∧ (handleUserMessage (handleUserMessage st sid content t₁ true ai₁).2.1
        sid content t₂ pf₂ ai₂).2.1.db = st.db := by
  obtain ⟨hfc, hne, hmid⟩ := userMessageStart_started st sid content fc t₁ h₁
  subst hfc
  rcases hs : userMessageStart st sid content t₁ with ⟨res, s'⟩
  rw [hs] at h₁ hmid
  dsimp only at h₁ hmid
  subst h₁
  subst hmid
  rw [handleUserMessage_started_eq st sid content _ t₁ true ai₁ _ hs]
  dsimp only
  set R : ChatState :=
    { st with
        processingRequests :=
          st.processingRequests ++ [requestKey sid (finalContentOf content)],
        lastUserMessages :=
          setAssoc st.lastUserMessages sid (finalContentOf content, t₁) } with hR
  have hfields := userMessageFinish_fields R sid (finalContentOf content) t₁ true ai₁
  have hpf := userMessageFinish_persistFails R sid (finalContentOf content) t₁ ai₁
  have hdb : (userMessageFinish R sid (finalContentOf content) t₁ true ai₁).1.db = st.db := by
    rw [hpf.1, hR]
  have hlast : (userMessageFinish R sid (finalContentOf content) t₁ true ai₁).1.lastUserMessages
      = setAssoc st.lastUserMessages sid (finalContentOf content, t₁) := by
    rw [hfields.2.2.1]
  have hdup : isDuplicate
      (userMessageFinish R sid (finalContentOf content) t₁ true ai₁).1.lastUserMessages
      sid (finalContentOf content) t₂ = true := by
    rw [hlast]
    unfold isDuplicate
    rw [lookupA_setAssoc_self]
    simp [hWin]
  rw [handleUserMessage_dup _ sid content t₂ pf₂ ai₂ hne hdup]
  refine ⟨rfl, hdb, ?_, rfl, hdb⟩
  rw [hlast]
  exact lookupA_setAssoc_self _ _ _

/-- C4 witness: the concrete content " hi " accepted at `t₁ = 1000` and
resubmitted at `t₂ = 3000` on an initially empty state. -/
theorem duplicate_window_single_persist_witness :
    (handleUserMessage
        (handleUserMessage ⟨⟨[], [], []⟩, [], [], [], [], ⟨[], []⟩⟩ "K" " hi " 1000 false none).2.1
        "K" " hi " 3000 false none).1 = .rejectedDuplicate
    ∧ (handleUserMessage
        (handleUserMessage ⟨⟨[], [], []⟩, [], [], [], [], ⟨[], []⟩⟩ "K" " hi " 1000 false none).2.1
        "K" " hi " 3000 false none).2.1.db.messages
        = (⟨⟨[], [], []⟩, [], [], [], [], ⟨[], []⟩⟩ : ChatState).db.messages
            ++ [⟨"K", "user", "hi", false⟩]
    ∧ (handleUserMessage
        (handleUserMessage ⟨⟨[], [], []⟩, [], [], [], [], ⟨[], []⟩⟩ "K" " hi " 1000 false none).2.1
        "K" " hi " 3000 false none).2.2 = [] :=
  duplicate_window_single_persist ⟨⟨[], [], []⟩, [], [], [], [], ⟨[], []⟩⟩
    "K" " hi " "hi" 1000 3000 none none false (by decide) (by decide) (by decide)

/-- C5 witness: concrete instantiation — an accepted start at key
"K_hi", a rejected submission while "K_hi" is in flight, and the release
behaviour of the finish phase. -/
theorem inflight_guard_spec_witness :
    requestKey "K" "hi"
        ∈ (userMessageStart ⟨⟨[], [], []⟩, [], [], [], [], ⟨[], []⟩⟩ "K" "hi" 0).2.processingRequests
    ∧ (handleUserMessage ⟨⟨[], [], []⟩, [], [], ["K_hi"], [], ⟨[], []⟩⟩ "K" "hi" 0 false none).1.isReject = true
    ∧ (handleUserMessage ⟨⟨[], [], []⟩, [], [], ["K_hi"], [], ⟨[], []⟩⟩ "K" "hi" 0 false none).2.1
        = ⟨⟨[], [], []⟩, [], [], ["K_hi"], [], ⟨[], []⟩⟩
    ∧ (handleUserMessage ⟨⟨[], [], []⟩, [], [], ["K_hi"], [], ⟨[], []⟩⟩ "K" "hi" 0 false none).2.2 = []
    ∧ requestKey "K" "hi"
        ∉ (userMessageFinish ⟨⟨[], [], []⟩, [], [], [], [], ⟨[], []⟩⟩ "K" "hi" 0 false none).1.processingRequests
    ∧ (requestKey "K" "hi", 0 + 30000)
        ∈ (userMessageFinish ⟨⟨[], [], []⟩, [], [], [], [], ⟨[], []⟩⟩ "K" "hi" 0 false none).1.pendingReleases
    ∧ requestKey "K" "hi"
        ∉ (fireRelease ⟨⟨[], [], []⟩, [], [], [], [], ⟨[], []⟩⟩ (requestKey "K" "hi") (0 + 30000)).processingRequests :=
  inflight_guard_spec
    ⟨⟨[], [], []⟩, [], [], [], [], ⟨[], []⟩⟩ "K" "hi" "hi" 0
    ⟨⟨[], [], []⟩, [], [], ["K_hi"], [], ⟨[], []⟩⟩ "K" "hi" 0 false none
    ⟨⟨[], [], []⟩, [], [], [], [], ⟨[], []⟩⟩ "K" "hi" 0 false none
    (by decide) (by decide)

/-- C10 witness: persistence of "hi" fails at `t₁ = 1000`; the identical
resubmission at `t₂ = 2000` is rejected as a duplicate, with the store
unchanged throughout. -/
theorem tracker_not_rolled_back_on_failure_witness :
    (handleUserMessage ⟨⟨[], [], []⟩, [], [], [], [], ⟨[], []⟩⟩ "K" "hi" 1000 true none).1
        = .storageFailed "hi"
    ∧ (handleUserMessage ⟨⟨[], [], []⟩, [], [], [], [], ⟨[], []⟩⟩ "K" "hi" 1000 true none).2.1.db
        = (⟨⟨[], [], []⟩, [], [], [], [], ⟨[], []⟩⟩ : ChatState).db
    ∧ lookupA (handleUserMessage ⟨⟨[], [], []⟩, [], [], [], [], ⟨[], []⟩⟩ "K" "hi" 1000 true none).2.1.lastUserMessages "K"
        = some ("hi", 1000)
    ∧ (handleUserMessage
        (handleUserMessage ⟨⟨[], [], []⟩, [], [], [], [], ⟨[], []⟩⟩ "K" "hi" 1000 true none).2.1
        "K" "hi" 2000 false none).1 = .rejectedDuplicate
    ∧ (handleUserMessage
        (handleUserMessage ⟨⟨[], [], []⟩, [], [], [], [], ⟨[], []⟩⟩ "K" "hi" 1000 true none).2.1
        "K" "hi" 2000 false none).2.1.db
        = (⟨⟨[], [], []⟩, [], [], [], [], ⟨[], []⟩⟩ : ChatState).db :=
  tracker_not_rolled_back_on_failure ⟨⟨[], [], []⟩, [], [], [], [], ⟨[], []⟩⟩
    "K" "hi" "hi" 1000 2000 none none false (by decide) (by decide)

end Chatbot
